import Mathlib

/-
Verification of the sparkplug-b-packets core (`src/sparkplub_b_packets/packets.py`)
against its natural-language specification.

The embedding translates the Python source directly:
* Python runtime values that can flow into the codec are modelled by `PyValue`
  (floats as rationals; `pyNone` stands for a value, such as `None`, whose
  runtime variant is none of bool/int/float/str).
* The pydantic models `MetricProperty` and `Metric` are structures, and their
  validating construction (pydantic checking the `value: Union[int, float, bool]`
  annotation) is `MetricProperty.validate` / `Metric.validate`.
* The protobuf `Payload` message is a structure holding the fields this layer
  touches: `timestamp`, the bdSeq carried by node birth/death messages, and the
  ordered metric list.  `SerializeToString` is the canonical serialization of
  that structure, so byte-level equality of outputs is structure equality here.
* Stateful pieces (the process-wide bdSeq of the sequence context) are passed
  explicitly as a `SeqContext` value; the wall clock is an explicit `now`
  parameter (milliseconds since epoch) for the constructors that stamp one.
* The module `sparkplub_b_packets.core.sparkplug_b` is not part of the sources;
  its operations are modelled from the spec and flagged as such in their doc
  comments.
-/

namespace SparkplugB

/-- A Python runtime value as seen by the codec: bool, int, float (modelled as a
rational), str, or a value of any other runtime type (`pyNone`, e.g. `None`). -/
inductive PyValue where
  | pyBool (b : Bool)
  | pyInt (n : Int)
  | pyFloat (q : Rat)
  | pyStr (s : String)
  | pyNone
  deriving DecidableEq

/-- Python `isinstance(v, bool)`. -/
def isinstanceBool : PyValue → Bool
  | .pyBool _ => true
  | _ => false

/-- Python `isinstance(v, int)`: `True` also for booleans, because `bool` is a
subtype of `int` in Python. -/
def isinstanceInt : PyValue → Bool
  | .pyBool _ => true
  | .pyInt _ => true
  | _ => false

/-- Python `isinstance(v, float)`. -/
def isinstanceFloat : PyValue → Bool
  | .pyFloat _ => true
  | _ => false

/-- Python `str(v)` for the values the string branch can receive. -/
def pyStrOf : PyValue → String
  | .pyBool true => "True"
  | .pyBool false => "False"
  | .pyInt n => toString n
  | .pyFloat q => toString q
  | .pyStr s => s
  | .pyNone => "None"

/-- Reading a Python value as a bool, as `bool_value = prop.value` does. -/
def pyAsBool : PyValue → Bool
  | .pyBool b => b
  | _ => false

/-- Reading a Python value as an int, as `int_value = prop.value` does
(`True` stores as 1, `False` as 0). -/
def pyAsInt : PyValue → Int
  | .pyBool b => if b then 1 else 0
  | .pyInt n => n
  | _ => 0

/-- Reading a Python value as a float, as `float_value = prop.value` does. -/
def pyAsFloat : PyValue → Rat
  | .pyFloat q => q
  | _ => 0

/-- The typed one-of slot of a wire value record: exactly one of the protobuf
value fields is set. -/
inductive WireValue where
  | boolField (b : Bool)
  | intField (n : Int)
  | floatField (q : Rat)
  | stringField (s : String)
  deriving DecidableEq

/-- The type-directed dispatch of `SparkplugBPacket.marshal_payload`
(packets.py lines 51-58): `isinstance` checks in the order bool, int, float,
with a final catch-all branch that stringifies the value, exactly as the
`if`/`elif`/`else` chain does. -/
def encodeValue (v : PyValue) : WireValue :=
  if isinstanceBool v then .boolField (pyAsBool v)
  else if isinstanceInt v then .intField (pyAsInt v)
  else if isinstanceFloat v then .floatField (pyAsFloat v)
  else .stringField (pyStrOf v)

/-- One entry of `metric.properties.values` on the wire: the property type tag
and the typed value slot. -/
structure WireProperty where
  ptype : Int
  value : WireValue
  deriving DecidableEq

/-- One entry of `payload.metrics` on the wire: name, numeric alias, datatype
tag, typed value, and the parallel property keys/values arrays. -/
structure WireMetric where
  name : String
  aliasNum : Int
  datatype : Int
  value : WireValue
  propKeys : List String
  propValues : List WireProperty
  deriving DecidableEq

/-- The protobuf `Payload` message, restricted to the fields this layer sets:
`timestamp` (ms since epoch), the bdSeq a node birth/death message carries, and
the ordered metric list. -/
structure Payload where
  timestamp : Option Nat
  bdSeq : Option Nat
  metrics : List WireMetric
  deriving DecidableEq

/-- The pydantic model `MetricProperty` (packets.py lines 16-19).  The `value`
field holds whatever Python value is currently assigned; the annotation
`Union[int, float, bool]` is enforced only at validating construction
(`MetricProperty.validate` below), not on later in-place assignment. -/
structure MetricProperty where
  name : String
  data_type : Int
  value : PyValue
  deriving DecidableEq

/-- The pydantic model `Metric` (packets.py lines 22-27).  `properties = None`
is modelled as the empty list, which the `if metrics[alias].properties:` guard
treats identically. -/
structure Metric where
  alias_name : String
  alias_map : Int
  data_type : Int
  value : PyValue
  properties : List MetricProperty
  deriving DecidableEq

/-- Whether a runtime value conforms to the pydantic annotation
`Union[int, float, bool]`. -/
def validValue : PyValue → Bool
  | .pyBool _ => true
  | .pyInt _ => true
  | .pyFloat _ => true
  | _ => false

/-- Pydantic validating construction of `MetricProperty`: succeeds exactly when
the value's runtime variant is one of the annotated `int`/`float`/`bool`. -/
def MetricProperty.validate (name : String) (data_type : Int) (value : PyValue) :
    Option MetricProperty :=
  if validValue value then some ⟨name, data_type, value⟩ else none

/-- Pydantic validating construction of `Metric`: succeeds exactly when the
value's runtime variant is one of the annotated `int`/`float`/`bool`. -/
def Metric.validate (alias_name : String) (alias_map : Int) (data_type : Int)
    (value : PyValue) (properties : List MetricProperty) : Option Metric :=
  if validValue value then some ⟨alias_name, alias_map, data_type, value, properties⟩
  else none

/-- Modelled from the spec: `addMetric` of the missing module
`sparkplub_b_packets.core.sparkplug_b` creates the wire metric record for one
metric: name, numeric alias, datatype tag, and the value written through the
type-directed dispatch of section 4.2 (bool, int, float, anything else
stringified); properties start empty and are extended by the caller. -/
def addMetric (name : String) (aliasNum : Int) (ty : Int) (value : PyValue) :
    WireMetric :=
  ⟨name, aliasNum, ty, encodeValue value, [], []⟩

/-- The net effect of one iteration of the metric loop in
`SparkplugBPacket.marshal_payload` (packets.py lines 38-58): `addMetric`
creates the wire metric, then each property appends its name to the parallel
key list and a typed value record (dispatched by lines 51-58) to the parallel
value list, in property order. -/
def wireOfMetric (aliasKey : String) (m : Metric) : WireMetric :=
  let base := addMetric aliasKey m.alias_map m.data_type m.value
  ⟨base.name, base.aliasNum, base.datatype, base.value,
    base.propKeys ++ m.properties.map MetricProperty.name,
    base.propValues ++ m.properties.map (fun p => ⟨p.data_type, encodeValue p.value⟩)⟩

/-- An insertion-ordered metric mapping (Python `Dict[str, Metric]`, iterated
in insertion order). -/
abbrev MetricMap := List (String × Metric)

/-- `SparkplugBPacket.marshal_payload` (packets.py lines 36-60): appends one
wire metric per mapping entry, in mapping order, to the supplied base payload
and serializes it.  The metric mapping is threaded through as state and
returned alongside the payload so that the absence of writes to it is
recorded: the source only reads `metrics[alias]`, so each entry is returned as
it was iterated. -/
def SparkplugBPacket.marshal_payload (payload : Payload) (metrics : MetricMap) :
    Payload × MetricMap :=
  match metrics with
  | [] => (payload, [])
  | (aliasKey, m) :: rest =>
    let p1 : Payload :=
      ⟨payload.timestamp, payload.bdSeq, payload.metrics ++ [wireOfMetric aliasKey m]⟩
    let r := SparkplugBPacket.marshal_payload p1 rest
    (r.1, (aliasKey, m) :: r.2)

/-- The process-wide sequence context of the missing module
`sparkplub_b_packets.core.sparkplug_b`: the birth/death sequence number. -/
structure SeqContext where
  bdSeq : Nat
  deriving DecidableEq

/-- Modelled from the spec: section 4.3 `nodeBirthPayload()` of the missing
`sparkplub_b_packets.core.sparkplug_b` module reads the current bdSeq into the
message and does not advance it. -/
def getNodeBirthPayload (ctx : SeqContext) : Payload × SeqContext :=
  (⟨none, some ctx.bdSeq, []⟩, ctx)

/-- Modelled from the spec: section 4.3 `nodeDeathPayload()` of the missing
`sparkplub_b_packets.core.sparkplug_b` module reads the current bdSeq into the
message, then advances it to invalidate the now-dead generation. -/
def getNodeDeathPayload (ctx : SeqContext) : Payload × SeqContext :=
  (⟨none, some ctx.bdSeq, []⟩, ⟨ctx.bdSeq + 1⟩)

/-- Modelled from the spec: section 4.3 `deviceBirthPayload()` of the missing
`sparkplub_b_packets.core.sparkplug_b` module: device-level messages carry a
timestamp only, no bdSeq. -/
def getDeviceBirthPayload (now : Nat) : Payload :=
  ⟨some now, none, []⟩

/-- The fresh timestamped base message NCMD and DCMD build inline
(packets.py lines 142-143 and 206-207): a new `Payload()` whose `timestamp` is
set to the current millisecond clock. -/
def freshTimestampedPayload (now : Nat) : Payload :=
  ⟨some now, none, []⟩

/-- The Python expression `metrics if metrics else self.metrics` used by every
payload method: `None` and the empty dict are both falsy, so an absent or
empty override falls back to the packet's stored metrics. -/
def effectiveMetrics (override : Option MetricMap) (stored : MetricMap) :
    MetricMap :=
  match override with
  | some m => if m.isEmpty then stored else m
  | none => stored

/-- A node-level packet: group, node, and the stored metric mapping
(`NBirthPacket.__init__` and the identical constructors of the other
node-level classes). -/
structure NodePacket where
  group : String
  node : String
  metrics : MetricMap
  deriving DecidableEq

/-- A device-level packet: group, node, device id, and the stored metric
mapping (`DBirthPacket.__init__`). -/
structure DevicePacket where
  group : String
  node : String
  device_id : String
  metrics : MetricMap
  deriving DecidableEq

/-- `NBirthPacket.topic` (packets.py lines 93-95). -/
def NBirthPacket.topic (p : NodePacket) : String :=
  "spBv1.0/" ++ p.group ++ "/NBIRTH/" ++ p.node

/-- `NBirthPacket.payload` (packets.py lines 101-105): node-birth base message
from the sequence context, then the generic metric marshal. -/
def NBirthPacket.payload (p : NodePacket) (metricsArg : Option MetricMap)
    (ctx : SeqContext) : Payload × SeqContext :=
  let b := getNodeBirthPayload ctx
  ((SparkplugBPacket.marshal_payload b.1 (effectiveMetrics metricsArg p.metrics)).1,
    b.2)

/-- `NDataPacket.topic` (packets.py lines 114-116). -/
def NDataPacket.topic (p : NodePacket) : String :=
  "spBv1.0/" ++ p.group ++ "/NDATA/" ++ p.node

/-- `NDataPacket.payload` (packets.py lines 122-124): the base message comes
from `sparkplug.getDeviceBirthPayload()` (line 123), then the generic metric
marshal. -/
def NDataPacket.payload (p : NodePacket) (metricsArg : Option MetricMap)
    (now : Nat) : Payload :=
  (SparkplugBPacket.marshal_payload (getDeviceBirthPayload now)
    (effectiveMetrics metricsArg p.metrics)).1

/-- `NCmdPacket.topic` (packets.py lines 133-135). -/
def NCmdPacket.topic (p : NodePacket) : String :=
  "spBv1.0/" ++ p.group ++ "/NCMD/" ++ p.node

/-- `NCmdPacket.payload` (packets.py lines 141-144): fresh timestamped
`Payload()`, then the generic metric marshal. -/
def NCmdPacket.payload (p : NodePacket) (metricsArg : Option MetricMap)
    (now : Nat) : Payload :=
  (SparkplugBPacket.marshal_payload (freshTimestampedPayload now)
    (effectiveMetrics metricsArg p.metrics)).1

/-- `NDeathPacket.topic` (packets.py lines 149-151). -/
def NDeathPacket.topic (p : NodePacket) : String :=
  "spBv1.0/" ++ p.group ++ "/NDEATH/" ++ p.node

/-- `NDeathPacket.payload` (packets.py lines 153-157): serializes the
node-death base message directly; neither the stored metrics nor the override
argument is consulted, and no metric loop runs. -/
def NDeathPacket.payload (p : NodePacket) (metricsArg : Option MetricMap)
    (ctx : SeqContext) : Payload × SeqContext :=
  getNodeDeathPayload ctx

/-- `DBirthPacket.topic` (packets.py lines 167-169). -/
def DBirthPacket.topic (p : DevicePacket) : String :=
  "spBv1.0/" ++ p.group ++ "/DBIRTH/" ++ p.node ++ "/" ++ p.device_id

/-- `DBirthPacket.payload` (packets.py lines 175-177): device-birth base
message, then the generic metric marshal. -/
def DBirthPacket.payload (p : DevicePacket) (metricsArg : Option MetricMap)
    (now : Nat) : Payload :=
  (SparkplugBPacket.marshal_payload (getDeviceBirthPayload now)
    (effectiveMetrics metricsArg p.metrics)).1

/-- `DDataPacket.topic` (packets.py lines 182-184). -/
def DDataPacket.topic (p : DevicePacket) : String :=
  "spBv1.0/" ++ p.group ++ "/DDATA/" ++ p.node ++ "/" ++ p.device_id

/-- `DDataPacket.payload` (packets.py lines 186-188): same construction path
as DBIRTH (device-birth base message plus metric marshal). -/
def DDataPacket.payload (p : DevicePacket) (metricsArg : Option MetricMap)
    (now : Nat) : Payload :=
  (SparkplugBPacket.marshal_payload (getDeviceBirthPayload now)
    (effectiveMetrics metricsArg p.metrics)).1

/-- `DCmdPacket.topic` (packets.py lines 197-199): the DCMD topic carries no
device segment; the class itself has no device identifier at all. -/
def DCmdPacket.topic (p : NodePacket) : String :=
  "spBv1.0/" ++ p.group ++ "/DCMD/" ++ p.node

/-- `DCmdPacket.payload` (packets.py lines 205-208): fresh timestamped
`Payload()`, then the generic metric marshal. -/
def DCmdPacket.payload (p : NodePacket) (metricsArg : Option MetricMap)
    (now : Nat) : Payload :=
  (SparkplugBPacket.marshal_payload (freshTimestampedPayload now)
    (effectiveMetrics metricsArg p.metrics)).1

/-- `DDeathPacket.topic` (packets.py lines 213-215). -/
def DDeathPacket.topic (p : DevicePacket) : String :=
  "spBv1.0/" ++ p.group ++ "/DDEATH/" ++ p.node ++ "/" ++ p.device_id

/-- `DDeathPacket.payload` (packets.py lines 217-219): serializes the
device-birth base message directly; neither the stored metrics nor the
override argument is consulted. -/
def DDeathPacket.payload (p : DevicePacket) (metricsArg : Option MetricMap)
    (now : Nat) : Payload :=
  getDeviceBirthPayload now

/-- The eight Sparkplug B message kinds. -/
inductive PacketKind where
  | NBIRTH
  | NDEATH
  | NDATA
  | NCMD
  | DBIRTH
  | DDATA
  | DCMD
  | DDEATH
  deriving DecidableEq

/-- The four base-message constructors a payload method can call. -/
inductive BaseMessageSource where
  | nodeBirth
  | nodeDeath
  | deviceBirth
  | freshTimestamped
  deriving DecidableEq

/-- Which base-message constructor each kind's `payload` method invokes in the
source: NBIRTH calls `getNodeBirthPayload` (line 103), NDEATH calls
`getNodeDeathPayload` (line 155), NDATA calls `getDeviceBirthPayload`
(line 123), NCMD builds a fresh timestamped `Payload()` (lines 142-143),
DBIRTH/DDATA/DDEATH call `getDeviceBirthPayload` (lines 176, 187, 218), and
DCMD builds a fresh timestamped `Payload()` (lines 206-207). -/
def baseSource : PacketKind → BaseMessageSource
  | .NBIRTH => .nodeBirth
  | .NDEATH => .nodeDeath
  | .NDATA => .deviceBirth
  | .NCMD => .freshTimestamped
  | .DBIRTH => .deviceBirth
  | .DDATA => .deviceBirth
  | .DCMD => .freshTimestamped
  | .DDEATH => .deviceBirth

/-- The topic templates of the spec's section 4.4 table, written from the
spec's words (for comparison with the topic methods translated from the
source). -/
def specTopicTemplate (k : PacketKind) (group node device : String) : String :=
  match k with
  | .NBIRTH => "spBv1.0/" ++ group ++ "/NBIRTH/" ++ node
  | .NDEATH => "spBv1.0/" ++ group ++ "/NDEATH/" ++ node
  | .NDATA => "spBv1.0/" ++ group ++ "/NDATA/" ++ node
  | .NCMD => "spBv1.0/" ++ group ++ "/NCMD/" ++ node
  | .DBIRTH => "spBv1.0/" ++ group ++ "/DBIRTH/" ++ node ++ "/" ++ device
  | .DDATA => "spBv1.0/" ++ group ++ "/DDATA/" ++ node ++ "/" ++ device
  | .DCMD => "spBv1.0/" ++ group ++ "/DCMD/" ++ node
  | .DDEATH => "spBv1.0/" ++ group ++ "/DDEATH/" ++ node ++ "/" ++ device

/-- Two payloads that agree on everything except possibly the timestamp
field. -/
def sameExceptTimestamp (p q : Payload) : Prop :=
  p.bdSeq = q.bdSeq ∧ p.metrics = q.metrics

/-- A metric whose property holds a value (`None`) whose runtime variant is
not bool, int, float, or str; such a value reaches the encoder through
in-place assignment, which pydantic does not re-validate. -/
def noneValuedMetric : Metric :=
  ⟨"a", 1, 9, PyValue.pyInt 0, [⟨"Q", 12, PyValue.pyNone⟩]⟩

/-- A concrete stored metric used for the override counterexample. -/
def storedMetric : Metric :=
  ⟨"CPU", 3, 10, PyValue.pyFloat 0, []⟩

/-- Marshalling appends exactly one wire metric per mapping entry, in mapping
order, after the base payload's metrics. -/
theorem marshal_payload_fst_metrics (p : Payload) (ms : MetricMap) :
    (SparkplugBPacket.marshal_payload p ms).1.metrics
      = p.metrics ++ ms.map (fun e => wireOfMetric e.1 e.2) := by
  induction ms generalizing p with
  | nil => simp [SparkplugBPacket.marshal_payload]
  | cons e t ih =>
    obtain ⟨a, m⟩ := e
    show (SparkplugBPacket.marshal_payload
        ⟨p.timestamp, p.bdSeq, p.metrics ++ [wireOfMetric a m]⟩ t).1.metrics = _
    rw [ih]
    simp

/-- Marshalling never touches the bdSeq field of the base payload. -/
theorem marshal_payload_fst_bdSeq (p : Payload) (ms : MetricMap) :
    (SparkplugBPacket.marshal_payload p ms).1.bdSeq = p.bdSeq := by
  induction ms generalizing p with
  | nil => rfl
  | cons e t ih =>
    obtain ⟨a, m⟩ := e
    exact ih _

/-- Marshalling never touches the timestamp field of the base payload. -/
theorem marshal_payload_fst_timestamp (p : Payload) (ms : MetricMap) :
    (SparkplugBPacket.marshal_payload p ms).1.timestamp = p.timestamp := by
  induction ms generalizing p with
  | nil => rfl
  | cons e t ih =>
    obtain ⟨a, m⟩ := e
    exact ih _

/-- Marshalling the same mapping over timestamp-only base payloads yields
outputs that agree outside the timestamp field. -/
theorem sameExceptTimestamp_marshal (a b : Option Nat) (ms : MetricMap) :
    sameExceptTimestamp (SparkplugBPacket.marshal_payload ⟨a, none, []⟩ ms).1
      (SparkplugBPacket.marshal_payload ⟨b, none, []⟩ ms).1 :=
  ⟨by rw [marshal_payload_fst_bdSeq, marshal_payload_fst_bdSeq],
    by rw [marshal_payload_fst_metrics, marshal_payload_fst_metrics]⟩

/-- A value conforming to the pydantic annotation is dispatched to its typed
field, never to the string branch. -/
theorem classified_not_string (v : PyValue) (hv : validValue v = true)
    (t : String) : encodeValue v ≠ WireValue.stringField t := by
  cases v with
  | pyBool b => exact fun h => WireValue.noConfusion h
  | pyInt n => exact fun h => WireValue.noConfusion h
  | pyFloat q => exact fun h => WireValue.noConfusion h
  | pyStr s => exact Bool.noConfusion hv
  | pyNone => exact Bool.noConfusion hv

/-- C1: after an NBIRTH constructed at bdSeq N embeds N, the next NDEATH for
the node embeds the same N (and only then advances the context), and a
subsequent NBIRTH embeds N + 1: the bdSeq is read without advancing on birth,
and read then advanced on death. -/
theorem bdSeq_birth_death_pairing (N : Nat) (p1 p2 p3 : NodePacket)
    (o1 o2 o3 : Option MetricMap) :
    (NBirthPacket.payload p1 o1 ⟨N⟩).1.bdSeq = some N ∧
    (NBirthPacket.payload p1 o1 ⟨N⟩).2 = ⟨N⟩ ∧
    (NDeathPacket.payload p2 o2 (NBirthPacket.payload p1 o1 ⟨N⟩).2).1.bdSeq
        = some N ∧
    (NDeathPacket.payload p2 o2 (NBirthPacket.payload p1 o1 ⟨N⟩).2).2 = ⟨N + 1⟩ ∧
    (NBirthPacket.payload p3 o3
        (NDeathPacket.payload p2 o2 (NBirthPacket.payload p1 o1 ⟨N⟩).2).2).1.bdSeq
      = some (N + 1) :=
  ⟨marshal_payload_fst_bdSeq ⟨none, some N, []⟩ (effectiveMetrics o1 p1.metrics),
    rfl, rfl, rfl,
    marshal_payload_fst_bdSeq ⟨none, some (N + 1), []⟩ (effectiveMetrics o3 p3.metrics)⟩

/-- C2 counterexample: a mapping whose property value (`None`) is classifiable
as none of bool/int/float/str is encoded without any error: a complete payload
is returned and the value is coerced to the string field `"None"` by the
catch-all branch, instead of an `EncodingError` being raised. -/
theorem unclassifiable_value_stringified_cex :
    (SparkplugBPacket.marshal_payload ⟨none, none, []⟩ [("a", noneValuedMetric)]).1 =
      ⟨none, none,
        [⟨"a", 1, 9, WireValue.intField 0, ["Q"], [⟨12, WireValue.stringField "None"⟩]⟩]⟩ :=
  rfl

/-- C2 (amended): the encode operation never raises: it is total over all
metric mappings, a value whose runtime variant is outside bool/int/float/str
is coerced to its `str()` form in the string field by the catch-all branch (no
`EncodingError` exists in the code), and classifiable values are encoded in
their matching typed fields. -/
theorem marshal_total_no_error (p : Payload) (ms : MetricMap) (b : Bool)
    (n : Int) (q : Rat) (s : String) :
    (SparkplugBPacket.marshal_payload p ms).1.metrics
        = p.metrics ++ ms.map (fun e => wireOfMetric e.1 e.2) ∧
    encodeValue PyValue.pyNone = WireValue.stringField "None" ∧
    encodeValue (PyValue.pyBool b) = WireValue.boolField b ∧
    encodeValue (PyValue.pyInt n) = WireValue.intField n ∧
    encodeValue (PyValue.pyFloat q) = WireValue.floatField q ∧
    encodeValue (PyValue.pyStr s) = WireValue.stringField s :=
  ⟨marshal_payload_fst_metrics p ms, rfl, rfl, rfl, rfl, rfl⟩

/-- C3 counterexample: supplying an empty override mapping does not yield an
empty metric section: the Python truthiness test `metrics if metrics else
self.metrics` treats the empty dict as falsy and encodes the stored metrics
instead. -/
theorem empty_override_falls_back_cex :
    (NBirthPacket.payload ⟨"g", "n", [("CPU", storedMetric)]⟩ (some []) ⟨0⟩).1.metrics
        = [wireOfMetric "CPU" storedMetric] ∧
    (NBirthPacket.payload ⟨"g", "n", [("CPU", storedMetric)]⟩ (some []) ⟨0⟩).1.metrics
        ≠ [] :=
  ⟨rfl, by decide⟩

/-- C3 (amended): a non-empty override is encoded exactly, ignoring stored
metrics; an empty or absent override falls back to the stored metrics (Python
truthiness of the override argument); NDEATH and DDEATH ignore stored metrics
and overrides entirely. -/
theorem override_semantics_amended (np : NodePacket) (dp : DevicePacket)
    (m : MetricMap) (ctx : SeqContext) (t : Nat) :
    (NBirthPacket.payload np (some m) ctx).1.metrics
        = (if m.isEmpty then np.metrics else m).map (fun e => wireOfMetric e.1 e.2) ∧
    (NBirthPacket.payload np none ctx).1.metrics
        = np.metrics.map (fun e => wireOfMetric e.1 e.2) ∧
    (NDataPacket.payload np (some m) t).metrics
        = (if m.isEmpty then np.metrics else m).map (fun e => wireOfMetric e.1 e.2) ∧
    (NCmdPacket.payload np (some m) t).metrics
        = (if m.isEmpty then np.metrics else m).map (fun e => wireOfMetric e.1 e.2) ∧
    (DBirthPacket.payload dp (some m) t).metrics
        = (if m.isEmpty then dp.metrics else m).map (fun e => wireOfMetric e.1 e.2) ∧
    (DDataPacket.payload dp (some m) t).metrics
        = (if m.isEmpty then dp.metrics else m).map (fun e => wireOfMetric e.1 e.2) ∧
    (DCmdPacket.payload np (some m) t).metrics
        = (if m.isEmpty then np.metrics else m).map (fun e => wireOfMetric e.1 e.2) ∧
    (NDeathPacket.payload np (some m) ctx).1.metrics = [] ∧
    (NDeathPacket.payload np none ctx).1.metrics = [] ∧
    (DDeathPacket.payload dp (some m) t).metrics = [] ∧
    (DDeathPacket.payload dp none t).metrics = [] :=
  ⟨marshal_payload_fst_metrics _ _, marshal_payload_fst_metrics _ _,
    marshal_payload_fst_metrics _ _, marshal_payload_fst_metrics _ _,
    marshal_payload_fst_metrics _ _, marshal_payload_fst_metrics _ _,
    marshal_payload_fst_metrics _ _, rfl, rfl, rfl, rfl⟩

/-- C4: for all identifier strings (so in particular for the non-empty,
slash-free ones the claim quantifies over) every kind's topic equals the
section 4.4 template verbatim, including DCMD's topic omitting the device
segment. -/
theorem topics_match_spec_templates (g n d : String) (ms : MetricMap) :
    NBirthPacket.topic ⟨g, n, ms⟩ = specTopicTemplate PacketKind.NBIRTH g n d ∧
    NDeathPacket.topic ⟨g, n, ms⟩ = specTopicTemplate PacketKind.NDEATH g n d ∧
    NDataPacket.topic ⟨g, n, ms⟩ = specTopicTemplate PacketKind.NDATA g n d ∧
    NCmdPacket.topic ⟨g, n, ms⟩ = specTopicTemplate PacketKind.NCMD g n d ∧
    DBirthPacket.topic ⟨g, n, d, ms⟩ = specTopicTemplate PacketKind.DBIRTH g n d ∧
    DDataPacket.topic ⟨g, n, d, ms⟩ = specTopicTemplate PacketKind.DDATA g n d ∧
    DDeathPacket.topic ⟨g, n, d, ms⟩ = specTopicTemplate PacketKind.DDEATH g n d ∧
    DCmdPacket.topic ⟨g, n, ms⟩ = specTopicTemplate PacketKind.DCMD g n d :=
  ⟨rfl, rfl, rfl, rfl, rfl, rfl, rfl, rfl⟩

/-- C5 counterexample: the base message of NDATA's payload construction comes
from the device-birth helper (`getDeviceBirthPayload`, packets.py line 123),
not from the fresh timestamped construction NCMD and DCMD use. -/
theorem ndata_base_cex :
    baseSource PacketKind.NDATA = BaseMessageSource.deviceBirth ∧
    baseSource PacketKind.NDATA ≠ BaseMessageSource.freshTimestamped ∧
    baseSource PacketKind.NDATA ≠ baseSource PacketKind.NCMD := by
  decide

/-- C5 (amended): NDATA's payload construction uses the device-birth-shaped
base message, the same helper as DBIRTH and DDATA, rather than the fresh
timestamped message NCMD and DCMD build inline. -/
theorem ndata_uses_device_birth_base (np : NodePacket) (o : Option MetricMap)
    (t : Nat) :
    NDataPacket.payload np o t
        = (SparkplugBPacket.marshal_payload (getDeviceBirthPayload t)
            (effectiveMetrics o np.metrics)).1 ∧
    baseSource PacketKind.NDATA = BaseMessageSource.deviceBirth ∧
    baseSource PacketKind.NDATA = baseSource PacketKind.DBIRTH ∧
    baseSource PacketKind.NDATA = baseSource PacketKind.DDATA :=
  ⟨rfl, rfl, rfl, rfl⟩

/-- C6 counterexample: NDEATH is not in the claim's exception list, yet two
successive `payload()` calls on the same NDEATH packet differ: the first
embeds bdSeq 5, the second 6, while their (absent) timestamps agree, so the
outputs are not byte-identical and the difference is not a timestamp. -/
theorem ndeath_not_idempotent_cex :
    (NDeathPacket.payload ⟨"g", "n", []⟩ none ⟨5⟩).1.bdSeq = some 5 ∧
    (NDeathPacket.payload ⟨"g", "n", []⟩ none
        ((NDeathPacket.payload ⟨"g", "n", []⟩ none ⟨5⟩).2)).1.bdSeq = some 6 ∧
    (NDeathPacket.payload ⟨"g", "n", []⟩ none ⟨5⟩).1.timestamp
        = (NDeathPacket.payload ⟨"g", "n", []⟩ none
            ((NDeathPacket.payload ⟨"g", "n", []⟩ none ⟨5⟩).2)).1.timestamp ∧
    (NDeathPacket.payload ⟨"g", "n", []⟩ none ⟨5⟩).1
        ≠ (NDeathPacket.payload ⟨"g", "n", []⟩ none
            ((NDeathPacket.payload ⟨"g", "n", []⟩ none ⟨5⟩).2)).1 := by
  decide

/-- C6 (amended): repeated payload construction on an unmutated packet is
structurally idempotent for NBIRTH (the context is not advanced); NDATA,
NCMD, DCMD, DBIRTH, DDATA and DDEATH stamp a fresh timestamp per call and two
invocations may differ only in the timestamp field; NDEATH advances bdSeq on
every call, so a second invocation differs exactly in the embedded bdSeq, not
in the timestamp. -/
theorem payload_repeat_behavior (np : NodePacket) (dp : DevicePacket)
    (o : Option MetricMap) (ctx : SeqContext) (t u : Nat) :
    (NBirthPacket.payload np o ctx).2 = ctx ∧
    (NBirthPacket.payload np o ((NBirthPacket.payload np o ctx).2)).1
        = (NBirthPacket.payload np o ctx).1 ∧
    sameExceptTimestamp (NDataPacket.payload np o t) (NDataPacket.payload np o u) ∧
    sameExceptTimestamp (NCmdPacket.payload np o t) (NCmdPacket.payload np o u) ∧
    sameExceptTimestamp (DCmdPacket.payload np o t) (DCmdPacket.payload np o u) ∧
    sameExceptTimestamp (DBirthPacket.payload dp o t) (DBirthPacket.payload dp o u) ∧
    sameExceptTimestamp (DDataPacket.payload dp o t) (DDataPacket.payload dp o u) ∧
    sameExceptTimestamp (DDeathPacket.payload dp o t) (DDeathPacket.payload dp o u) ∧
    (NDeathPacket.payload np o ctx).1.bdSeq = some ctx.bdSeq ∧
    (NDeathPacket.payload np o ((NDeathPacket.payload np o ctx).2)).1.bdSeq
        = some (ctx.bdSeq + 1) ∧
    (NDeathPacket.payload np o ctx).1.metrics
        = (NDeathPacket.payload np o ((NDeathPacket.payload np o ctx).2)).1.metrics ∧
    (NDeathPacket.payload np o ctx).1.timestamp
        = (NDeathPacket.payload np o ((NDeathPacket.payload np o ctx).2)).1.timestamp :=
  ⟨rfl, rfl,
    sameExceptTimestamp_marshal (some t) (some u) _,
    sameExceptTimestamp_marshal (some t) (some u) _,
    sameExceptTimestamp_marshal (some t) (some u) _,
    sameExceptTimestamp_marshal (some t) (some u) _,
    sameExceptTimestamp_marshal (some t) (some u) _,
    ⟨rfl, rfl⟩, rfl, rfl, rfl, rfl⟩

/-- C7: a metric property holding a boolean resolves to the boolean branch of
the dispatch and never to the integer branch, although `isinstance(v, int)`
is also true for booleans in the host runtime. -/
theorem bool_dispatch_precedence (p : MetricProperty) (b : Bool)
    (h : p.value = PyValue.pyBool b) :
    encodeValue p.value = WireValue.boolField b ∧
    isinstanceInt p.value = true ∧
    ∀ n : Int, encodeValue p.value ≠ WireValue.intField n := by
  rw [h]
  exact ⟨rfl, rfl, fun n hn => WireValue.noConfusion hn⟩

/-- Witness for C7 at a concrete boolean property. -/
theorem bool_dispatch_precedence_witness :
    (⟨"Rebirth", 11, PyValue.pyBool true⟩ : MetricProperty).value
        = PyValue.pyBool true ∧
    encodeValue (⟨"Rebirth", 11, PyValue.pyBool true⟩ : MetricProperty).value
        = WireValue.boolField true ∧
    encodeValue (⟨"Rebirth", 11, PyValue.pyBool true⟩ : MetricProperty).value
        ≠ WireValue.intField 1 :=
  ⟨rfl, (bool_dispatch_precedence ⟨"Rebirth", 11, PyValue.pyBool true⟩ true rfl).1,
    (bool_dispatch_precedence ⟨"Rebirth", 11, PyValue.pyBool true⟩ true rfl).2.2 1⟩

/-- C8 counterexample: requesting the topic of a packet whose group is empty
raises nothing: the malformed topic string `"spBv1.0//NBIRTH/n"`, containing
an empty segment (adjacent delimiters), is produced. -/
theorem invalid_identifier_topic_cex :
    NBirthPacket.topic ⟨"", "n", []⟩ = "spBv1.0//NBIRTH/n" ∧
    List.IsInfix [Char.ofNat 47, Char.ofNat 47] "spBv1.0//NBIRTH/n".data :=
  ⟨rfl, by decide⟩

/-- C8 (amended): the topic accessors perform no identifier validation: also
for an empty or slash-containing group string the verbatim interpolation is
returned and no error is raised (no `InvalidIdentifierError` exists in the
code), so malformed topics are produced rather than prevented. -/
theorem topic_no_validation (g n d : String) (ms : MetricMap)
    (hg : g = "" ∨ (Char.ofNat 47) ∈ g.data) :
    NBirthPacket.topic ⟨g, n, ms⟩ = "spBv1.0/" ++ g ++ "/NBIRTH/" ++ n ∧
    DBirthPacket.topic ⟨g, n, d, ms⟩
        = "spBv1.0/" ++ g ++ "/DBIRTH/" ++ n ++ "/" ++ d ∧
    DCmdPacket.topic ⟨g, n, ms⟩ = "spBv1.0/" ++ g ++ "/DCMD/" ++ n :=
  ⟨rfl, rfl, rfl⟩

/-- Witness for C8 (amended) at the empty group string. -/
theorem topic_no_validation_witness :
    (("" : String) = "" ∨ (Char.ofNat 47) ∈ ("" : String).data) ∧
    NBirthPacket.topic ⟨"", "n", []⟩ = "spBv1.0/" ++ "" ++ "/NBIRTH/" ++ "n" :=
  ⟨Or.inl rfl, (topic_no_validation "" "n" "d" [] (Or.inl rfl)).1⟩

/-- C9: the codec only reads the caller-owned metric mapping: marshalling
returns every entry (alias key and full metric record, properties included)
exactly as it was passed. -/
theorem marshal_payload_reads_only_metrics (p : Payload) (ms : MetricMap) :
    (SparkplugBPacket.marshal_payload p ms).2 = ms := by
  induction ms generalizing p with
  | nil => rfl
  | cons e t ih =>
    obtain ⟨a, m⟩ := e
    exact congrArg (List.cons (a, m)) (ih _)

/-- C10: validated construction only succeeds with an int, float, or bool
value; a string value is rejected; hence the dispatch never sends a stored,
validated value to the string branch. -/
theorem validated_value_classified (nm al : String) (am dt : Int)
    (v : PyValue) (s : String) (props : List MetricProperty) :
    (∀ mp : MetricProperty, MetricProperty.validate nm dt v = some mp →
        validValue mp.value = true ∧
          ∀ t, encodeValue mp.value ≠ WireValue.stringField t) ∧
    MetricProperty.validate nm dt (PyValue.pyStr s) = none ∧
    (∀ m : Metric, Metric.validate al am dt v props = some m →
        validValue m.value = true ∧
          ∀ t, encodeValue m.value ≠ WireValue.stringField t) ∧
    Metric.validate al am dt (PyValue.pyStr s) props = none := by
  refine ⟨?_, rfl, ?_, rfl⟩
  · intro mp h
    unfold MetricProperty.validate at h
    split at h
    · injection h with h2
      subst h2
      rename_i hv
      exact ⟨hv, fun t => classified_not_string v hv t⟩
    · exact Option.noConfusion h
  · intro m h
    unfold Metric.validate at h
    split at h
    · injection h with h2
      subst h2
      rename_i hv
      exact ⟨hv, fun t => classified_not_string v hv t⟩
    · exact Option.noConfusion h

/-- Witness for C10 at a concrete boolean property value and a concrete
string value. -/
theorem validated_value_classified_witness :
    MetricProperty.validate "Q" 3 (PyValue.pyBool true)
        = some ⟨"Q", 3, PyValue.pyBool true⟩ ∧
    validValue (PyValue.pyBool true) = true ∧
    encodeValue (PyValue.pyBool true) ≠ WireValue.stringField "True" ∧
    MetricProperty.validate "Q" 3 (PyValue.pyStr "x") = none := by
  refine ⟨rfl, ?_, ?_,
    (validated_value_classified "Q" "a" 1 3 (PyValue.pyBool true) "x" []).2.1⟩
  · exact ((validated_value_classified "Q" "a" 1 3 (PyValue.pyBool true) "x" []).1
      ⟨"Q", 3, PyValue.pyBool true⟩ rfl).1
  · exact ((validated_value_classified "Q" "a" 1 3 (PyValue.pyBool true) "x" []).1
      ⟨"Q", 3, PyValue.pyBool true⟩ rfl).2 "True"

end SparkplugB
